import Mathlib

/-!
Shallow embedding of `computer_use_demo/token_tracker.py`: a pricing table,
per-call usage records with cost calculation, and a session-level token
tracker that aggregates usage and persists JSON snapshots.

Modelling conventions: Python `int` fields become `ℤ`, Python `float`
monetary values become `ℚ` (the source only performs exact decimal
arithmetic on them), `datetime` instants become `ℚ` seconds passed in
explicitly, and the filesystem becomes explicit state (`Option Json` for
the file's content, `FileState` for what construction finds on disk).
-/

/-- One entry of the `PRICING` table: USD per 1M tokens.  `cached_input`
is `none` when the Python dict has no `"cached_input"` key. -/
structure RateSchedule where
  input : ℚ
  output : ℚ
  cached_input : Option ℚ
deriving DecidableEq, Repr

/-- The `PRICING` dict of the source, in declaration order. -/
def PRICING : List (String × RateSchedule) := [
  ("claude-3-5-sonnet-20240620", RateSchedule.mk 3 15 (some (3/10))),
  ("anthropic.claude-3-5-sonnet-20240620:0", RateSchedule.mk 3 15 none),
  ("claude-3-5-sonnet@20240620", RateSchedule.mk 3 15 none),
  ("claude-3-5-sonnet-20241022-v2", RateSchedule.mk 3 15 (some (3/10))),
  ("anthropic.claude-3-5-sonnet-20241022-v2:0", RateSchedule.mk 3 15 none),
  ("claude-3-5-sonnet-v2@20241022", RateSchedule.mk 3 15 none),
  ("claude-3-7-sonnet-20250219", RateSchedule.mk 5 25 (some (1/2))),
  ("default", RateSchedule.mk 5 25 (some (1/2)))]

/-- The schedule the source stores under the `"default"` key. -/
def defaultSchedule : RateSchedule := RateSchedule.mk 5 25 (some (1/2))

/-- `PRICING[self.model] if self.model in PRICING else PRICING["default"]`
from `TokenUsage.calculate_cost`.  The inner match on the `"default"`
lookup mirrors the unconditional dict access `PRICING["default"]`; its
`none` branch is unreachable because the table contains the key. -/
def lookupPricing (model : String) : RateSchedule :=
  match PRICING.lookup model with
  | some p => p
  | none =>
    match PRICING.lookup "default" with
    | some p => p
    | none => RateSchedule.mk 0 0 none

/-- The `TokenUsage` dataclass. -/
structure TokenUsage where
  timestamp : String
  model : String
  input_tokens : ℤ
  output_tokens : ℤ
  cached_input_tokens : ℤ := 0
  thinking_tokens : ℤ := 0
  cost_usd : ℚ := 0
deriving DecidableEq, Repr

/-- `TokenUsage.calculate_cost`: returns the record with `cost_usd`
written back, together with the returned cost. -/
def TokenUsage.calculate_cost (u : TokenUsage) : TokenUsage × ℚ :=
  let pricing := lookupPricing u.model
  let input_cost := ((u.input_tokens : ℚ) / 1000000) * pricing.input
  let output_cost := ((u.output_tokens : ℚ) / 1000000) * pricing.output
  let cached_cost : ℚ :=
    match pricing.cached_input with
    | some r =>
      if u.cached_input_tokens > 0 then ((u.cached_input_tokens : ℚ) / 1000000) * r
      else 0
    | none => 0
  let cost := input_cost + output_cost + cached_cost
  ({ u with cost_usd := cost }, cost)

/-- What `_load_existing_records` can find at the log path: no file,
a file that fails `json.load`, or a parsed object whose `"records"`
list converts to `TokenUsage` values (an object with no `"records"`
key is `validJson []`, matching `data.get("records", [])`). -/
inductive FileState where
  | missing : FileState
  | invalidJson : FileState
  | validJson : List TokenUsage → FileState
deriving DecidableEq, Repr

/-- The record list `_load_existing_records` leaves in
`self.usage_records`: prior records when the file parses, `[]` when the
file is absent or `json.load` raises `JSONDecodeError`. -/
def loadExistingRecords : FileState → List TokenUsage
  | FileState.missing => []
  | FileState.invalidJson => []
  | FileState.validJson records => records

/-- The mutable state of a `TokenTracker` instance. -/
structure TokenTracker where
  log_path : String
  usage_records : List TokenUsage
  session_id : String
  session_start_time : ℚ
deriving DecidableEq, Repr

/-- `TokenTracker.__init__`: stores the path, derives `session_id` and
`session_start_time` from the clock (passed in explicitly), and runs
`_load_existing_records` on whatever is on disk. -/
def TokenTracker.init (log_path : String) (onDisk : FileState)
    (session_id : String) (session_start_time : ℚ) : TokenTracker :=
  { log_path := log_path,
    usage_records := loadExistingRecords onDisk,
    session_id := session_id,
    session_start_time := session_start_time }

/-- Python `int(x)` on a real value: truncation toward zero. -/
def pyInt (q : ℚ) : ℤ :=
  if q < 0 then -(Int.floor (-q)) else Int.floor q

/-- Python `f"{n:02}"`: decimal rendering left-padded with `0` to a
minimum width of 2. -/
def pad2 (n : ℤ) : String :=
  let s := toString n
  if s.length < 2 then "0" ++ s else s

/-- The duration formatting of `get_session_stats`:
`divmod(int(duration_seconds), 3600)` then `divmod(remainder, 60)`
(Python `divmod` is floor division) rendered as `HH:MM:SS`. -/
def formatDuration (duration_seconds : ℚ) : String :=
  let t := pyInt duration_seconds
  let hours := Int.fdiv t 3600
  let remainder := Int.fmod t 3600
  let minutes := Int.fdiv remainder 60
  let seconds := Int.fmod remainder 60
  pad2 hours ++ ":" ++ pad2 minutes ++ ":" ++ pad2 seconds

/-- The dict returned by `get_session_stats`. -/
structure SessionStats where
  total_input_tokens : ℤ
  total_output_tokens : ℤ
  total_cached_input_tokens : ℤ
  total_thinking_tokens : ℤ
  total_requests : ℕ
  total_cost_usd : ℚ
  session_start_time : ℚ
  current_time : ℚ
  session_duration_seconds : ℚ
  session_duration : String
deriving DecidableEq, Repr

/-- `TokenTracker.get_session_stats`, with `datetime.now()` passed in as
`now`. -/
def TokenTracker.get_session_stats (t : TokenTracker) (now : ℚ) : SessionStats :=
  let total_input := (t.usage_records.map TokenUsage.input_tokens).sum
  let total_output := (t.usage_records.map TokenUsage.output_tokens).sum
  let total_cached := (t.usage_records.map TokenUsage.cached_input_tokens).sum
  let total_thinking := (t.usage_records.map TokenUsage.thinking_tokens).sum
  let total_cost := (t.usage_records.map TokenUsage.cost_usd).sum
  let duration_seconds := now - t.session_start_time
  { total_input_tokens := total_input,
    total_output_tokens := total_output,
    total_cached_input_tokens := total_cached,
    total_thinking_tokens := total_thinking,
    total_requests := t.usage_records.length,
    total_cost_usd := total_cost,
    session_start_time := t.session_start_time,
    current_time := now,
    session_duration_seconds := duration_seconds,
    session_duration := formatDuration duration_seconds }

/-- The in-memory effect of `TokenTracker.add_usage`: compute the cost
(mutating the record) and append it to `usage_records`.  The file write
that follows is modelled separately (`TokenTracker.add_usage_step`). -/
def TokenTracker.add_usage (t : TokenTracker) (usage : TokenUsage) : TokenTracker :=
  let usage' := (usage.calculate_cost).1
  { t with usage_records := t.usage_records ++ [usage'] }

/-- Folding a whole call sequence through `add_usage`. -/
def TokenTracker.addAll (t : TokenTracker) (us : List TokenUsage) : TokenTracker :=
  us.foldl TokenTracker.add_usage t

/-- The JSON values `json.dump` serializes here.  Numbers are split into
the integer and rational cases the source actually produces; `time q`
stands for the ISO-8601 rendering `datetime.isoformat()` of the instant
`q` (the rendering is injective on instants, so the instant itself is
kept). -/
inductive Json where
  | str : String → Json
  | int : ℤ → Json
  | rat : ℚ → Json
  | time : ℚ → Json
  | arr : List Json → Json
  | obj : List (String × Json) → Json

/-- Field access on a JSON object (`none` on other values). -/
def Json.getField : Json → String → Option Json
  | Json.obj fields, key => fields.lookup key
  | _, _ => none

/-- The top-level keys of a JSON object, in serialization order. -/
def Json.topKeys : Json → List String
  | Json.obj fields => fields.map Prod.fst
  | _ => []

/-- `asdict(record)` for a `TokenUsage` dataclass. -/
def encodeUsage (u : TokenUsage) : Json :=
  Json.obj [
    ("timestamp", Json.str u.timestamp),
    ("model", Json.str u.model),
    ("input_tokens", Json.int u.input_tokens),
    ("output_tokens", Json.int u.output_tokens),
    ("cached_input_tokens", Json.int u.cached_input_tokens),
    ("thinking_tokens", Json.int u.thinking_tokens),
    ("cost_usd", Json.rat u.cost_usd)]

/-- Serialization of the `get_session_stats` dict. -/
def encodeStats (s : SessionStats) : Json :=
  Json.obj [
    ("total_input_tokens", Json.int s.total_input_tokens),
    ("total_output_tokens", Json.int s.total_output_tokens),
    ("total_cached_input_tokens", Json.int s.total_cached_input_tokens),
    ("total_thinking_tokens", Json.int s.total_thinking_tokens),
    ("total_requests", Json.int (s.total_requests : ℤ)),
    ("total_cost_usd", Json.rat s.total_cost_usd),
    ("session_start_time", Json.time s.session_start_time),
    ("current_time", Json.time s.current_time),
    ("session_duration_seconds", Json.rat s.session_duration_seconds),
    ("session_duration", Json.str s.session_duration)]

/-- The `data` object `_write_to_file` builds and dumps: `session_id`,
`last_updated`, `session_stats`, and the full `records` list. -/
def TokenTracker.writeData (t : TokenTracker) (now : ℚ) : Json :=
  Json.obj [
    ("session_id", Json.str t.session_id),
    ("last_updated", Json.time now),
    ("session_stats", encodeStats (t.get_session_stats now)),
    ("records", Json.arr (t.usage_records.map encodeUsage))]

/-- The effect of `open(self.log_path, "w")` + `json.dump` on the file:
whatever was there before, the file now holds exactly the new data. -/
def TokenTracker.writeFile (t : TokenTracker) (now : ℚ)
    (prior : Option Json) : Option Json :=
  let _ := prior
  some (t.writeData now)

/-- Decoding projections used to read a snapshot back. -/
def Json.asInt : Json → Option ℤ
  | Json.int n => some n
  | _ => none

def Json.asRat : Json → Option ℚ
  | Json.rat q => some q
  | _ => none

def Json.asTime : Json → Option ℚ
  | Json.time q => some q
  | _ => none

def Json.asStr : Json → Option String
  | Json.str s => some s
  | _ => none

/-- Parsing a serialized `session_stats` object back into the structure. -/
def parseStats (j : Json) : Option SessionStats := do
  let ti ← (j.getField "total_input_tokens").bind Json.asInt
  let to' ← (j.getField "total_output_tokens").bind Json.asInt
  let tc ← (j.getField "total_cached_input_tokens").bind Json.asInt
  let tt ← (j.getField "total_thinking_tokens").bind Json.asInt
  let tr ← (j.getField "total_requests").bind Json.asInt
  let cost ← (j.getField "total_cost_usd").bind Json.asRat
  let start ← (j.getField "session_start_time").bind Json.asTime
  let cur ← (j.getField "current_time").bind Json.asTime
  let durS ← (j.getField "session_duration_seconds").bind Json.asRat
  let dur ← (j.getField "session_duration").bind Json.asStr
  some { total_input_tokens := ti,
         total_output_tokens := to',
         total_cached_input_tokens := tc,
         total_thinking_tokens := tt,
         total_requests := tr.toNat,
         total_cost_usd := cost,
         session_start_time := start,
         current_time := cur,
         session_duration_seconds := durS,
         session_duration := dur }

/-- Parsing the persisted file and extracting its `session_stats`. -/
def parseSnapshotStats (j : Json) : Option SessionStats :=
  (j.getField "session_stats").bind parseStats

/-- One whole `add_usage` call including persistence, with the write's
success or failure (`writeOk`) decided by the filesystem environment.
Returns the new in-memory state, the new file content, and the call's
outcome (`Except.error` models the uncaught `OSError` propagating to the
caller).  The cost computation and the append to `usage_records` happen
before `_write_to_file` runs, so a failing write leaves them in place. -/
def TokenTracker.add_usage_step (t : TokenTracker) (usage : TokenUsage)
    (now : ℚ) (fs : Option Json) (writeOk : Bool) :
    TokenTracker × Option Json × Except String Unit :=
  let t' := t.add_usage usage
  if writeOk then (t', t'.writeFile now fs, Except.ok ())
  else (t', fs, Except.error "PersistenceError")

/-- Modelled from the spec: the cost formula of section 4.2, written
from the spec's words for comparison with `TokenUsage.calculate_cost`. -/
def spec_compute (input_tokens output_tokens cached_input_tokens : ℤ)
    (schedule : RateSchedule) : ℚ :=
  (input_tokens : ℚ) / 1000000 * schedule.input
    + (output_tokens : ℚ) / 1000000 * schedule.output
    + match schedule.cached_input with
      | some r =>
        if 0 < cached_input_tokens then (cached_input_tokens : ℚ) / 1000000 * r else 0
      | none => 0

/-- Modelled from the spec: duration rendering per section 4.4 / C9 —
floor-truncate the duration to whole seconds, then zero-padded
`HH:MM:SS`. -/
def specFormatDuration (d : ℚ) : String :=
  let n := Int.floor d
  pad2 (Int.fdiv n 3600) ++ ":" ++ pad2 (Int.fdiv (Int.fmod n 3600) 60)
    ++ ":" ++ pad2 (Int.fmod (Int.fmod n 3600) 60)

/-! ## Helper lemmas -/

/-- A successful association-list lookup returns one of the stored values. -/
theorem lookup_mem_values {l : List (String × RateSchedule)} {k : String}
    {b : RateSchedule} (h : l.lookup k = some b) : b ∈ l.map Prod.snd := by
  obtain ⟨l₁, l₂, rfl, -⟩ := List.lookup_eq_some_iff.mp h
  simp

/-- Every schedule stored in `PRICING` has non-negative rates. -/
theorem pricing_values_nonneg (s : RateSchedule) (hs : s ∈ PRICING.map Prod.snd) :
    0 ≤ s.input ∧ 0 ≤ s.output ∧ ∀ r ∈ s.cached_input, 0 ≤ r := by
  simp only [PRICING, List.map_cons, List.map_nil, List.mem_cons,
    List.not_mem_nil, or_false] at hs
  rcases hs with h | h | h | h | h | h | h | h <;> subst h <;>
    refine ⟨by norm_num, by norm_num, ?_⟩ <;> intro r hr <;>
    simp only [Option.mem_def, Option.some.injEq] at hr <;>
    first
      | (subst hr; norm_num)
      | cases hr

/-- Whatever the model string, the resolved schedule has non-negative
rates. -/
theorem lookupPricing_nonneg (m : String) :
    0 ≤ (lookupPricing m).input ∧ 0 ≤ (lookupPricing m).output ∧
      ∀ r ∈ (lookupPricing m).cached_input, 0 ≤ r := by
  unfold lookupPricing
  cases h : PRICING.lookup m with
  | some s => exact pricing_values_nonneg s (lookup_mem_values h)
  | none =>
    exact pricing_values_nonneg defaultSchedule
      (lookup_mem_values (l := PRICING) (k := "default") rfl)

/-- The cost computed for a record with non-negative token counts is
non-negative. -/
theorem calculate_cost_nonneg (u : TokenUsage) (hin : 0 ≤ u.input_tokens)
    (hout : 0 ≤ u.output_tokens) (hcache : 0 ≤ u.cached_input_tokens) :
    0 ≤ (u.calculate_cost).2 := by
  obtain ⟨h1, h2, h3⟩ := lookupPricing_nonneg u.model
  unfold TokenUsage.calculate_cost
  have hin' : (0:ℚ) ≤ (u.input_tokens : ℚ) / 1000000 := by positivity
  have hout' : (0:ℚ) ≤ (u.output_tokens : ℚ) / 1000000 := by positivity
  have hcache' : (0:ℚ) ≤ (u.cached_input_tokens : ℚ) / 1000000 := by positivity
  refine add_nonneg (add_nonneg (mul_nonneg hin' h1) (mul_nonneg hout' h2)) ?_
  cases hc : (lookupPricing u.model).cached_input with
  | some r =>
    have hr : 0 ≤ r := h3 r (by rw [hc]; rfl)
    dsimp only
    split
    · exact mul_nonneg hcache' hr
    · exact le_refl 0
  | none => exact le_refl 0

/-- `calculate_cost` only writes `cost_usd`; the token counts and the
model are untouched. -/
theorem calculate_cost_fst (u : TokenUsage) :
    (u.calculate_cost).1 = { u with cost_usd := (u.calculate_cost).2 } := rfl

theorem calculate_cost_input (u : TokenUsage) :
    ((u.calculate_cost).1).input_tokens = u.input_tokens := rfl

theorem calculate_cost_output (u : TokenUsage) :
    ((u.calculate_cost).1).output_tokens = u.output_tokens := rfl

theorem calculate_cost_cached (u : TokenUsage) :
    ((u.calculate_cost).1).cached_input_tokens = u.cached_input_tokens := rfl

theorem calculate_cost_thinking (u : TokenUsage) :
    ((u.calculate_cost).1).thinking_tokens = u.thinking_tokens := rfl

theorem calculate_cost_cost (u : TokenUsage) :
    ((u.calculate_cost).1).cost_usd = (u.calculate_cost).2 := rfl

/-- The record list after folding a call sequence: every record is
appended, in order, with its cost written back. -/
theorem addAll_usage_records (us : List TokenUsage) (t : TokenTracker) :
    (t.addAll us).usage_records
      = t.usage_records ++ us.map (fun u => (u.calculate_cost).1) := by
  induction us generalizing t with
  | nil => simp [TokenTracker.addAll]
  | cons u us ih =>
    simp [TokenTracker.addAll, List.foldl_cons] at ih ⊢
    rw [ih]
    simp [TokenTracker.add_usage]

/-! ## Claims -/

/-- C1, counterexample: a tracker constructed over a pre-existing file
holding one valid record does NOT start with all-zero aggregates — the
prior record is loaded and counted, so `total_requests` is already 1. -/
theorem C1_fresh_session_counterexample :
    (((TokenTracker.init "p"
        (FileState.validJson [TokenUsage.mk "2025-01-01T00:00:00" "m" 7 0 0 0 0])
        "s" 0)).get_session_stats 0).total_requests ≠ 0 := by
  decide

/-- C1, amended: construction stores `loadExistingRecords` of whatever
is on disk — prior records from a parsable file ARE loaded into the new
tracker; only when the file is missing (or unparsable, see C10) do all
session aggregate counters start at zero. -/
theorem C1_construction_aggregates (path sid : String) (start now : ℚ) :
    (∀ onDisk : FileState,
      (TokenTracker.init path onDisk sid start).usage_records
        = loadExistingRecords onDisk)
    ∧ ((TokenTracker.init path FileState.missing sid start).get_session_stats
          now).total_input_tokens = 0
    ∧ ((TokenTracker.init path FileState.missing sid start).get_session_stats
          now).total_output_tokens = 0
    ∧ ((TokenTracker.init path FileState.missing sid start).get_session_stats
          now).total_cached_input_tokens = 0
    ∧ ((TokenTracker.init path FileState.missing sid start).get_session_stats
          now).total_thinking_tokens = 0
    ∧ ((TokenTracker.init path FileState.missing sid start).get_session_stats
          now).total_cost_usd = 0
    ∧ ((TokenTracker.init path FileState.missing sid start).get_session_stats
          now).total_requests = 0
    ∧ (∀ rs : List TokenUsage,
        (TokenTracker.init path (FileState.validJson rs) sid start).usage_records
          = rs) :=
  ⟨fun _ => rfl, rfl, rfl, rfl, rfl, rfl, rfl, fun _ => rfl⟩

/-- C2: for a record with non-negative token counts, the computed cost
is exactly the spec's linear formula over the resolved schedule —
cached tokens billed only when the schedule has a cached rate and the
count is positive — and `thinking_tokens` never influence the cost. -/
theorem C2_cost_formula (u : TokenUsage) (_hin : 0 ≤ u.input_tokens)
    (_hout : 0 ≤ u.output_tokens) (_hcache : 0 ≤ u.cached_input_tokens)
    (_hthink : 0 ≤ u.thinking_tokens) :
    (u.calculate_cost).2
        = spec_compute u.input_tokens u.output_tokens u.cached_input_tokens
            (lookupPricing u.model)
      ∧ ∀ tk : ℤ,
          (TokenUsage.calculate_cost { u with thinking_tokens := tk }).2
            = (u.calculate_cost).2 :=
  ⟨rfl, fun _ => rfl⟩

/-- C2 witness: the spec's 30.5-dollar scenario — one million input,
output, and cached tokens under `claude-3-7-sonnet-20250219` pricing. -/
theorem C2_cost_formula_witness :
    (0:ℤ) ≤ 1000000
    ∧ ((TokenUsage.mk "2025-01-01T00:00:00" "claude-3-7-sonnet-20250219"
          1000000 1000000 1000000 0 0).calculate_cost).2
        = spec_compute 1000000 1000000 1000000
            (lookupPricing "claude-3-7-sonnet-20250219")
    ∧ ((TokenUsage.mk "2025-01-01T00:00:00" "claude-3-7-sonnet-20250219"
          1000000 1000000 1000000 0 0).calculate_cost).2 = 61/2 := by
  refine ⟨by decide,
    (C2_cost_formula
      (TokenUsage.mk "2025-01-01T00:00:00" "claude-3-7-sonnet-20250219"
        1000000 1000000 1000000 0 0)
      (by decide) (by decide) (by decide) (by decide)).1, ?_⟩
  have hl : lookupPricing "claude-3-7-sonnet-20250219"
      = RateSchedule.mk 5 25 (some (1/2)) := rfl
  simp only [TokenUsage.calculate_cost, hl]
  norm_num

/-- C3: pricing lookup is total — either the model is a key of
`PRICING` and its own schedule is used, or the lookup misses and the
schedule stored under the reserved key `"default"` is used. -/
theorem C3_lookup_total (m : String) :
    (∃ s, PRICING.lookup m = some s ∧ lookupPricing m = s)
      ∨ (PRICING.lookup m = none
          ∧ PRICING.lookup "default" = some defaultSchedule
          ∧ lookupPricing m = defaultSchedule) := by
  cases h : PRICING.lookup m with
  | some s => exact Or.inl ⟨s, rfl, by unfold lookupPricing; rw [h]⟩
  | none => exact Or.inr ⟨rfl, rfl, by unfold lookupPricing; rw [h]; rfl⟩

/-- C4: starting from a fresh tracker (no file on disk), after folding
any call sequence `us` through `add_usage`, `get_session_stats` reports
`total_requests = us.length` and every total is the sum of the
corresponding field (resp. computed cost) over exactly those records. -/
theorem C4_session_totals (path sid : String) (start now : ℚ)
    (us : List TokenUsage) :
    (((TokenTracker.init path FileState.missing sid start).addAll
        us).get_session_stats now).total_requests = us.length
    ∧ (((TokenTracker.init path FileState.missing sid start).addAll
        us).get_session_stats now).total_input_tokens
      = (us.map TokenUsage.input_tokens).sum
    ∧ (((TokenTracker.init path FileState.missing sid start).addAll
        us).get_session_stats now).total_output_tokens
      = (us.map TokenUsage.output_tokens).sum
    ∧ (((TokenTracker.init path FileState.missing sid start).addAll
        us).get_session_stats now).total_cached_input_tokens
      = (us.map TokenUsage.cached_input_tokens).sum
    ∧ (((TokenTracker.init path FileState.missing sid start).addAll
        us).get_session_stats now).total_thinking_tokens
      = (us.map TokenUsage.thinking_tokens).sum
    ∧ (((TokenTracker.init path FileState.missing sid start).addAll
        us).get_session_stats now).total_cost_usd
      = (us.map (fun u => (u.calculate_cost).2)).sum := by
  have hrec := addAll_usage_records us
    (TokenTracker.init path FileState.missing sid start)
  dsimp only [TokenTracker.get_session_stats]
  rw [hrec]
  simp [TokenTracker.init, loadExistingRecords, List.map_map, Function.comp_def,
    calculate_cost_input, calculate_cost_output, calculate_cost_cached,
    calculate_cost_thinking, calculate_cost_cost]

/-- C5: the snapshot written after the k-th `add_usage` call, parsed
back, yields exactly the `session_stats` that `get_session_stats`
reports at that moment (the same instant `now` is used for both, which
is the claim's "modulo current_time drift"). -/
theorem C5_snapshot_roundtrip (path sid : String) (onDisk : FileState)
    (start now : ℚ) (us : List TokenUsage) (k : ℕ) (prior : Option Json) :
    ∃ j : Json,
      ((TokenTracker.init path onDisk sid start).addAll
          (us.take k)).writeFile now prior = some j
      ∧ parseSnapshotStats j
        = some (((TokenTracker.init path onDisk sid start).addAll
            (us.take k)).get_session_stats now) :=
  ⟨((TokenTracker.init path onDisk sid start).addAll (us.take k)).writeData now,
    rfl, rfl⟩

/-- C6, counterexample: the persisted object is NOT limited to
`session_id`/`last_updated`/`session_stats` — it also carries a
`records` key with the full per-record list. -/
theorem C6_sole_interface_counterexample :
    "records" ∈ ((TokenTracker.init "p" FileState.missing "s" 0).writeData 0).topKeys
    ∧ "records" ∉ ["session_id", "last_updated", "session_stats"] := by
  decide

/-- C6, amended: every write fully overwrites the file with an object
whose keys are `session_id`, `last_updated`, `session_stats` AND
`records`; the first three hold the session id, the write-time
timestamp, and exactly `get_session_stats()`, while `records` holds the
serialized record list. -/
theorem C6_snapshot_amended (t : TokenTracker) (now : ℚ) (prior : Option Json) :
    t.writeFile now prior = some (t.writeData now)
    ∧ (t.writeData now).topKeys
      = ["session_id", "last_updated", "session_stats", "records"]
    ∧ (t.writeData now).getField "session_id" = some (Json.str t.session_id)
    ∧ (t.writeData now).getField "last_updated" = some (Json.time now)
    ∧ (t.writeData now).getField "session_stats"
      = some (encodeStats (t.get_session_stats now))
    ∧ (t.writeData now).getField "records"
      = some (Json.arr (t.usage_records.map encodeUsage)) :=
  ⟨rfl, rfl, rfl, rfl, rfl, rfl⟩

/-- C7: one `add_usage` call with non-negative token counts never
decreases any aggregate: every token total, the cost total, and the
request count reported by `get_session_stats` only grow or stay put. -/
theorem C7_aggregate_monotone (t : TokenTracker) (u : TokenUsage) (now : ℚ)
    (hin : 0 ≤ u.input_tokens) (hout : 0 ≤ u.output_tokens)
    (hcache : 0 ≤ u.cached_input_tokens) (_hthink : 0 ≤ u.thinking_tokens) :
    (t.get_session_stats now).total_input_tokens
        ≤ ((t.add_usage u).get_session_stats now).total_input_tokens
    ∧ (t.get_session_stats now).total_output_tokens
        ≤ ((t.add_usage u).get_session_stats now).total_output_tokens
    ∧ (t.get_session_stats now).total_cached_input_tokens
        ≤ ((t.add_usage u).get_session_stats now).total_cached_input_tokens
    ∧ (t.get_session_stats now).total_thinking_tokens
        ≤ ((t.add_usage u).get_session_stats now).total_thinking_tokens
    ∧ (t.get_session_stats now).total_cost_usd
        ≤ ((t.add_usage u).get_session_stats now).total_cost_usd
    ∧ (t.get_session_stats now).total_requests
        ≤ ((t.add_usage u).get_session_stats now).total_requests := by
  have hcost := calculate_cost_nonneg u hin hout hcache
  dsimp only [TokenTracker.get_session_stats, TokenTracker.add_usage]
  simp only [List.map_append, List.sum_append, List.map_cons, List.map_nil,
    List.sum_cons, List.sum_nil, List.length_append, List.length_cons,
    List.length_nil, calculate_cost_input, calculate_cost_output,
    calculate_cost_cached, calculate_cost_thinking, calculate_cost_cost]
  refine ⟨by linarith, by linarith, by linarith, by linarith, by linarith, by omega⟩

/-- C7 witness: a concrete non-negative record folded into a fresh
tracker leaves every aggregate at least where it was. -/
theorem C7_aggregate_monotone_witness :
    ((TokenTracker.init "p" FileState.missing "s" 0).get_session_stats
        0).total_input_tokens
      ≤ (((TokenTracker.init "p" FileState.missing "s" 0).add_usage
          (TokenUsage.mk "t" "m" 1 2 3 4 0)).get_session_stats
            0).total_input_tokens
    ∧ ((TokenTracker.init "p" FileState.missing "s" 0).get_session_stats
        0).total_output_tokens
      ≤ (((TokenTracker.init "p" FileState.missing "s" 0).add_usage
          (TokenUsage.mk "t" "m" 1 2 3 4 0)).get_session_stats
            0).total_output_tokens
    ∧ ((TokenTracker.init "p" FileState.missing "s" 0).get_session_stats
        0).total_cached_input_tokens
      ≤ (((TokenTracker.init "p" FileState.missing "s" 0).add_usage
          (TokenUsage.mk "t" "m" 1 2 3 4 0)).get_session_stats
            0).total_cached_input_tokens
    ∧ ((TokenTracker.init "p" FileState.missing "s" 0).get_session_stats
        0).total_thinking_tokens
      ≤ (((TokenTracker.init "p" FileState.missing "s" 0).add_usage
          (TokenUsage.mk "t" "m" 1 2 3 4 0)).get_session_stats
            0).total_thinking_tokens
    ∧ ((TokenTracker.init "p" FileState.missing "s" 0).get_session_stats
        0).total_cost_usd
      ≤ (((TokenTracker.init "p" FileState.missing "s" 0).add_usage
          (TokenUsage.mk "t" "m" 1 2 3 4 0)).get_session_stats
            0).total_cost_usd
    ∧ ((TokenTracker.init "p" FileState.missing "s" 0).get_session_stats
        0).total_requests
      ≤ (((TokenTracker.init "p" FileState.missing "s" 0).add_usage
          (TokenUsage.mk "t" "m" 1 2 3 4 0)).get_session_stats
            0).total_requests :=
  C7_aggregate_monotone (TokenTracker.init "p" FileState.missing "s" 0)
    (TokenUsage.mk "t" "m" 1 2 3 4 0) 0
    (by decide) (by decide) (by decide) (by decide)

/-- C8: `add_usage` has no rollback — the record is folded into the
in-memory list no matter what; when the write succeeds the file holds
the new snapshot and the call returns normally, and when the write
fails the error propagates while the in-memory aggregate keeps the
record and the file keeps its prior content. -/
theorem C8_no_rollback (t : TokenTracker) (u : TokenUsage) (now : ℚ)
    (fs : Option Json) (writeOk : Bool) :
    (t.add_usage_step u now fs writeOk).1.usage_records
        = t.usage_records ++ [(u.calculate_cost).1]
    ∧ (t.add_usage_step u now fs writeOk).2.2
        = (if writeOk then Except.ok () else Except.error "PersistenceError")
    ∧ (t.add_usage_step u now fs writeOk).2.1
        = (if writeOk then some ((t.add_usage u).writeData now) else fs) := by
  cases writeOk <;> exact ⟨rfl, rfl, rfl⟩

/-- C9: whenever the elapsed duration is non-negative, the
`session_duration` string reported by `get_session_stats` is the spec's
zero-padded `HH:MM:SS` rendering of the floor-truncated duration. -/
theorem C9_duration_format (t : TokenTracker) (now : ℚ)
    (h : 0 ≤ now - t.session_start_time) :
    (t.get_session_stats now).session_duration
      = specFormatDuration (now - t.session_start_time) := by
  dsimp only [TokenTracker.get_session_stats]
  unfold formatDuration specFormatDuration pyInt
  rw [if_neg (not_lt.mpr h)]

/-- C9 witness: a session lasting 3725 seconds renders as "01:02:05". -/
theorem C9_duration_format_witness :
    ((TokenTracker.init "p" FileState.missing "s" 0).get_session_stats
        3725).session_duration = "01:02:05" := by
  rw [C9_duration_format (TokenTracker.init "p" FileState.missing "s" 0) 3725
    (by simp [TokenTracker.init])]
  show specFormatDuration ((3725:ℚ) - 0) = "01:02:05"
  rw [sub_zero]
  rfl

/-- C10: construction over a file with invalid JSON succeeds with an
empty record list (the parse error is swallowed), while construction
over valid JSON with a `records` list loads exactly those records. -/
theorem C10_load_existing (path sid : String) (start : ℚ)
    (rs : List TokenUsage) :
    (TokenTracker.init path FileState.invalidJson sid start).usage_records = []
    ∧ (TokenTracker.init path (FileState.validJson rs) sid start).usage_records
      = rs :=
  ⟨rfl, rfl⟩
